import Mathlib

/-!
# Pack Layout & Roll Geometry Generation Engine — verification development

Shallow embedding of the core of the toilet-roll pack visualizer
(`src/js/main_final.js`, with the input parsing helpers shared verbatim by
`src/js/main.js`, and the hollow-core radius derivation of the second
`main.js` variant's `updateGeometries`).

Modelling conventions:
* JavaScript numbers are embedded as exact rationals `ℚ` (the algorithms use
  only `+ - * / min max`, no transcendental functions, so every value the
  engine computes is rational).
* Raw DOM field values (`el.value`) are embedded as `String`; the builtins
  `parseInt(s, 10)` / `parseFloat(s)` are embedded by their ECMAScript
  semantics, with `NaN` as `none`.  `parseFloat` inputs denoting `Infinity`
  are also mapped to `none`: `getFloat` guards every parse with
  `Number.isFinite`, which rejects both `NaN` and `Infinity`, so collapsing
  the two into `none` preserves `getFloat`'s observable behaviour.
* The mutable scene graph (`packGroup`) is embedded as an explicit state
  value (a list of positioned rolls) threaded through `generatePack`;
  materials, mesh colours and render-only placement of sub-meshes inside a
  roll group are rendering concerns outside the engine and are not part of
  the state.
-/

namespace PackViz

/-- Scale factor: `const MM = 0.1` — 10 mm = 1 world unit. -/
def MM : ℚ := 1 / 10

/-- Spacing guard: `const EPS = 0.01`, a small fixed constant. -/
def EPS : ℚ := 1 / 100

/-! Section: ECMAScript numeric parsing (`parseInt(s, 10)` / `parseFloat(s)`) -/

/-- JavaScript `StrWhiteSpaceChar` (the characters relevant to form input). -/
def isJsWhitespace (c : Char) : Bool :=
  c == ' ' || c == '\t' || c == '\n' || c == '\r'

/-- Drop leading whitespace, as both `parseInt` and `parseFloat` do. -/
def skipWs : List Char → List Char
  | [] => []
  | c :: cs => if isJsWhitespace c then skipWs cs else c :: cs

/-- Longest run of decimal digits at the head of the character list. -/
def leadingDigits : List Char → List Char
  | [] => []
  | c :: cs => if c.isDigit then c :: leadingDigits cs else []

/-- Value of a run of decimal digits (most significant first). -/
def digitsToNat (ds : List Char) : ℕ :=
  ds.foldl (fun acc c => 10 * acc + (c.toNat - 48)) 0

/-- ECMAScript `parseInt(s, 10)`: skip whitespace, read an optional sign and then the
longest prefix of decimal digits, ignoring everything after it; `NaN`
(embedded as `none`) when no digit is found. -/
def parseIntJs (s : String) : Option ℤ :=
  match skipWs s.toList with
  | '-' :: rest =>
    match leadingDigits rest with
    | [] => none
    | ds => some (-(digitsToNat ds : ℤ))
  | '+' :: rest =>
    match leadingDigits rest with
    | [] => none
    | ds => some (digitsToNat ds : ℤ)
  | cs =>
    match leadingDigits cs with
    | [] => none
    | ds => some (digitsToNat ds : ℤ)

/-- Powers of ten, `10 ^ n`, as a rational. -/
def pow10 (n : ℕ) : ℚ := (10 : ℚ) ^ n

/-- Syntactic content of an ECMAScript `StrDecimalLiteral` prefix: sign,
integer digits, fractional digits (with their count, so leading zeros keep
their weight), and the decimal exponent (`0` when absent or malformed —
`parseFloat` keeps the longest valid prefix and ignores the rest). -/
structure DecimalLit where
  neg : Bool
  intVal : ℕ
  fracVal : ℕ
  fracLen : ℕ
  exp : ℤ
deriving DecidableEq

/-- Value of an optional exponent tail after `e`/`E` (`0` if malformed). -/
def expVal : List Char → ℤ
  | '-' :: r =>
    match leadingDigits r with
    | [] => 0
    | ds => -(digitsToNat ds : ℤ)
  | '+' :: r =>
    match leadingDigits r with
    | [] => 0
    | ds => (digitsToNat ds : ℤ)
  | r =>
    match leadingDigits r with
    | [] => 0
    | ds => (digitsToNat ds : ℤ)

/-- Exponent of the literal: present only behind an `e`/`E` marker. -/
def expPart : List Char → ℤ
  | 'e' :: r => expVal r
  | 'E' :: r => expVal r
  | _ => 0

/-- Unsigned `StrDecimalLiteral` prefix: digits, an optional fraction, an
optional exponent.  `none` when not even one digit is present
(`parseFloat` → `NaN`). -/
def parseDecimalLit (neg : Bool) (cs : List Char) : Option DecimalLit :=
  let intPart := leadingDigits cs
  let rest := cs.drop intPart.length
  let fracPart :=
    match rest with
    | '.' :: r => leadingDigits r
    | _ => []
  let rest2 :=
    match rest with
    | '.' :: r => r.drop (leadingDigits r).length
    | _ => rest
  if intPart.isEmpty && fracPart.isEmpty then none
  else some ⟨neg, digitsToNat intPart, digitsToNat fracPart, fracPart.length, expPart rest2⟩

/-- ECMAScript `parseFloat(s)` up to valuation: skip whitespace, optional sign,
decimal literal. -/
def parseFloatParts (s : String) : Option DecimalLit :=
  match skipWs s.toList with
  | '-' :: rest => parseDecimalLit true rest
  | '+' :: rest => parseDecimalLit false rest
  | cs => parseDecimalLit false cs

/-- Mathematical value of a decimal literal (ECMAScript `StringNumericValue`,
kept exact in `ℚ` rather than rounded to binary64). -/
def ratOfLit (d : DecimalLit) : ℚ :=
  let mag : ℚ := ((d.intVal : ℚ) + (d.fracVal : ℚ) / pow10 d.fracLen) * (10 : ℚ) ^ d.exp
  if d.neg then -mag else mag

/-- ECMAScript `parseFloat(s)`: the value of the recognized literal, `NaN` as `none`. -/
def parseFloatJs (s : String) : Option ℚ :=
  (parseFloatParts s).map ratOfLit

/-! Section: Input helpers (`main.js` lines 75–83; identical in `main_final.js`) -/

/-- Count-field helper `function getInt(el, fallback) { const v = parseInt(el.value, 10);
return Number.isFinite(v) && v > 0 ? v : fallback; }` -/
def getInt (raw : String) (fallback : ℤ) : ℤ :=
  match parseIntJs raw with
  | some v => if 0 < v then v else fallback
  | none => fallback

/-- Dimension-field helper `function getFloat(el, fallback) { const v = parseFloat(el.value);
return Number.isFinite(v) && v >= 0 ? v : fallback; }` -/
def getFloat (raw : String) (fallback : ℚ) : ℚ :=
  match parseFloatJs raw with
  | some v => if 0 ≤ v then v else fallback
  | none => fallback

/-! Section: Configuration model (`readParams`, `main_final.js` lines 107–119) -/

/-- The raw values of the seven input fields (`el.value` of each element). -/
structure RawInputs where
  rollsPerRow : String
  rowsPerLayer : String
  layers : String
  rollDiameter : String
  coreDiameter : String
  rollHeight : String
  rollGap : String

/-- The parsed configuration record returned by `readParams`.  Counts are
held as `ℕ`: `getInt` yields a value `> 0` whenever its fallback is (lemma
`getInt_pos`), and the counts are only consumed as loop extents. -/
structure Params where
  rollsPerRow : ℕ
  rowsPerLayer : ℕ
  layers : ℕ
  rollDiameterMm : ℚ
  coreDiameterMm : ℚ
  rollHeightMm : ℚ
  rollGapMm : ℚ
deriving DecidableEq

/-- Configuration reader `readParams()` of `main_final.js` (fallbacks 4, 3, 2, 120, 45, 100, 7;
the first `main.js` variant differs only in the gap fallback, 1). -/
def readParams (raw : RawInputs) : Params where
  rollsPerRow := (getInt raw.rollsPerRow 4).toNat
  rowsPerLayer := (getInt raw.rowsPerLayer 3).toNat
  layers := (getInt raw.layers 2).toNat
  rollDiameterMm := getFloat raw.rollDiameter 120
  coreDiameterMm := getFloat raw.coreDiameter 45
  rollHeightMm := getFloat raw.rollHeight 100
  rollGapMm := getFloat raw.rollGap 7

/-- The shape of every configuration `readParams` can emit: positive counts
and non-negative dimensions (each field is either a validated input or a
positive fallback). -/
def Params.Valid (p : Params) : Prop :=
  1 ≤ p.rollsPerRow ∧ 1 ≤ p.rowsPerLayer ∧ 1 ≤ p.layers ∧
    0 ≤ p.rollDiameterMm ∧ 0 ≤ p.coreDiameterMm ∧ 0 ≤ p.rollHeightMm ∧
    0 ≤ p.rollGapMm

instance (p : Params) : Decidable p.Valid := by
  unfold Params.Valid; infer_instance

/-- Copy of `p` with only the gap field replaced (used to state gap-invariance). -/
def Params.withGap (p : Params) (g : ℚ) : Params :=
  ⟨p.rollsPerRow, p.rowsPerLayer, p.layers, p.rollDiameterMm,
    p.coreDiameterMm, p.rollHeightMm, g⟩

/-! Section: Derived dimensions and layout spacing (`generatePack` locals,
`main_final.js` lines 286–299) -/

/-- Derived radius `const R_outer = (p.rollDiameterMm / 2) * MM`. -/
def outerRadiusOf (p : Params) : ℚ := (p.rollDiameterMm / 2) * MM

/-- Derived radius `const R_core = (p.coreDiameterMm / 2) * MM`. -/
def coreRadiusOf (p : Params) : ℚ := (p.coreDiameterMm / 2) * MM

/-- Derived length `const L = p.rollHeightMm * MM` — roll length in world units. -/
def rollLengthW (p : Params) : ℚ := p.rollHeightMm * MM

/-- Derived diameter `const D = p.rollDiameterMm * MM` — roll diameter in world units. -/
def rollDiameterW (p : Params) : ℚ := p.rollDiameterMm * MM

/-- Derived gap `const G = p.rollGapMm * MM` in world units. -/
def rollGapW (p : Params) : ℚ := p.rollGapMm * MM

/-- Lane-axis (roll length) spacing `const spacingX = L + G + EPS`. -/
def spacingX (p : Params) : ℚ := rollLengthW p + rollGapW p + EPS

/-- Layer-axis spacing `const spacingY = D + EPS`. -/
def spacingY (p : Params) : ℚ := rollDiameterW p + EPS

/-- Channel-axis spacing `const spacingZ = D + EPS`. -/
def spacingZ (p : Params) : ℚ := rollDiameterW p + EPS

/-- Lane-axis centering offset `const offsetX = -((p.rollsPerRow - 1) * spacingX) / 2`. -/
def offsetX (p : Params) : ℚ := -(((p.rollsPerRow : ℚ) - 1) * spacingX p) / 2

/-- Channel-axis centering offset `const offsetZ = -((p.rowsPerLayer - 1) * spacingZ) / 2`. -/
def offsetZ (p : Params) : ℚ := -(((p.rowsPerLayer : ℚ) - 1) * spacingZ p) / 2

/-- Layer-axis centering offset `const baseY = -((p.layers - 1) * spacingY) / 2`. -/
def baseY (p : Params) : ℚ := -(((p.layers : ℚ) - 1) * spacingY p) / 2

/-- Largest lane-axis coordinate of the grid, `(n-1) * spacingX / 2`;
by centering, the smallest is its negation (`offsetX`). -/
def maxCoordX (p : Params) : ℚ := ((p.rollsPerRow : ℚ) - 1) * spacingX p / 2

/-- Largest layer-axis coordinate of the grid. -/
def maxCoordY (p : Params) : ℚ := ((p.layers : ℚ) - 1) * spacingY p / 2

/-- Largest channel-axis coordinate of the grid. -/
def maxCoordZ (p : Params) : ℚ := ((p.rowsPerLayer : ℚ) - 1) * spacingZ p / 2

/-! Section: Roll geometry builder (`buildRoll`, `main_final.js` lines 152–273)

Materials, rotations and the world positions of the sub-meshes inside the
roll group are rendering decoration; the embedded `RollGeometry` keeps each
patch's shape parameters, which is what the engine derives from the three
inputs. -/

/-- Shape parameters of one `THREE.CylinderGeometry` patch. -/
structure CylinderGeom where
  radiusTop : ℚ
  radiusBottom : ℚ
  height : ℚ
  openEnded : Bool
deriving DecidableEq

/-- Shape parameters of one `THREE.RingGeometry` patch. -/
structure RingGeom where
  innerRadius : ℚ
  outerRadius : ℚ
deriving DecidableEq

/-- Core wall thickness `const coreThickness = 1.2 * MM`. -/
def coreThickness : ℚ := (12 / 10) * MM

/-- Bevel band depth `const bevelDepth = 0.9 * MM`. -/
def bevelDepth : ℚ := (9 / 10) * MM

/-- One roll's surface patches together with the three radii that the
builder derived them from. -/
structure RollGeometry where
  outerRadius : ℚ
  coreOuterRadius : ℚ
  coreInnerRadius : ℚ
  sideGeom : CylinderGeom
  bevelGeom : CylinderGeom
  endRingGeom : RingGeom
  coreOuterGeom : CylinderGeom
  coreInnerGeom : CylinderGeom
  coreEndRingGeom : RingGeom
deriving DecidableEq

/-- Builder `function buildRoll(R_outer, R_coreOuter, L)`: derives
`R_coreInner = Math.max(0, R_coreOuter - coreThickness)` and builds the
paper side cylinder, the two bevel bands, the paper end rings, the core
outer and inner shells and the core end rings. -/
def buildRoll (R_outer R_coreOuter L : ℚ) : RollGeometry :=
  let R_coreInner := max 0 (R_coreOuter - coreThickness)
  { outerRadius := R_outer
    coreOuterRadius := R_coreOuter
    coreInnerRadius := R_coreInner
    sideGeom := ⟨R_outer, R_outer, L - bevelDepth * 2, true⟩
    bevelGeom := ⟨R_outer, R_outer, bevelDepth, true⟩
    endRingGeom := ⟨R_coreOuter, R_outer⟩
    coreOuterGeom := ⟨R_coreOuter, R_coreOuter, L * (97 / 100), true⟩
    coreInnerGeom := ⟨R_coreInner, R_coreInner, L * (97 / 100), true⟩
    coreEndRingGeom := ⟨R_coreInner, R_coreOuter⟩ }

/-! Section: Hollow-core radius derivation of the second `main.js` variant
(`updateGeometries`, `main.js` lines 491–492) -/

/-- Wall thickness `const coreWallThickness = Math.min(coreOuterR * 0.25, 0.8 * MM)`. -/
def coreWallThickness (coreOuterR : ℚ) : ℚ :=
  min (coreOuterR * (25 / 100)) ((8 / 10) * MM)

/-- Inner radius `const coreInnerR = Math.max(coreOuterR - coreWallThickness,
coreOuterR * 0.6)`. -/
def coreInnerR (coreOuterR : ℚ) : ℚ :=
  max (coreOuterR - coreWallThickness coreOuterR) (coreOuterR * (6 / 10))

/-! Section: Layout engine and pack assembler (`generatePack`,
`main_final.js` lines 283–321) -/

/-- The placement grid: the body of the triple loop
`for layer … for row … for col …`, in the loop's iteration order; each
translation is `(offsetX + col*spacingX, baseY + layer*spacingY,
offsetZ + row*spacingZ)`. -/
def placements (p : Params) : List (ℚ × ℚ × ℚ) :=
  (List.range p.layers).flatMap fun layer : ℕ =>
    (List.range p.rowsPerLayer).flatMap fun row : ℕ =>
      (List.range p.rollsPerRow).map fun col : ℕ =>
        (offsetX p + (col : ℚ) * spacingX p,
          baseY p + (layer : ℚ) * spacingY p,
          offsetZ p + (row : ℚ) * spacingZ p)

/-- The mutable `packGroup` scene node, as the list of its children:
positioned roll instances. -/
abbrev PackGroup := List (RollGeometry × (ℚ × ℚ × ℚ))

/-- Scene reset `clearPack()`: removes every child of `packGroup`. -/
def clearPack (_packGroup : PackGroup) : PackGroup := []

/-- Result of one `generatePack()` call: the new `packGroup` contents plus
the total shown in the two count labels. -/
structure PackScene where
  packGroup : PackGroup
  total : ℕ
deriving DecidableEq

/-- Regeneration `function generatePack()`, from the parsed params on: derive the radii
and length, clear the previous pack, run the placement loop (one
`buildRoll` instance per cell), and report
`total = p.rollsPerRow * p.rowsPerLayer * p.layers`. -/
def generatePack (p : Params) (packGroup : PackGroup) : PackScene :=
  let cleared := clearPack packGroup
  { packGroup :=
      cleared ++ (placements p).map fun pos =>
        (buildRoll (outerRadiusOf p) (coreRadiusOf p) (rollLengthW p), pos)
    total := p.rollsPerRow * p.rowsPerLayer * p.layers }

/-! Section: Concrete configurations used by the spec's scenarios -/

/-- Scenario configuration with every field at its fallback. -/
def defaultParams : Params := ⟨4, 3, 2, 120, 45, 100, 7⟩

/-- Scenario 2 configuration: a single roll. -/
def singleParams : Params := ⟨1, 1, 1, 120, 45, 100, 7⟩

/-- Scenario 3 configuration: core diameter larger than roll diameter. -/
def invalidCoreParams : Params := ⟨4, 3, 2, 120, 200, 100, 7⟩

/-! Section: Helper lemmas -/

/-- Helper `getInt` returns a positive value whenever its fallback is positive,
which justifies holding the parsed counts as `ℕ`. -/
theorem getInt_pos (raw : String) (fallback : ℤ) (h : 0 < fallback) :
    0 < getInt raw fallback := by
  unfold getInt
  rcases parseIntJs raw with _ | v
  · exact h
  · dsimp only
    split
    · assumption
    · exact h

/-- The placement list has exactly one entry per grid cell. -/
theorem placements_length (p : Params) :
    (placements p).length = p.rollsPerRow * p.rowsPerLayer * p.layers := by
  unfold placements
  simp [List.length_flatMap, Function.comp_def, List.map_const']
  ring

/-- Membership in the placement list, by grid indices. -/
theorem mem_placements {p : Params} {v : ℚ × ℚ × ℚ} :
    v ∈ placements p ↔
      ∃ layer < p.layers, ∃ row < p.rowsPerLayer, ∃ col < p.rollsPerRow,
        v = (offsetX p + (col : ℚ) * spacingX p,
              baseY p + (layer : ℚ) * spacingY p,
              offsetZ p + (row : ℚ) * spacingZ p) := by
  unfold placements
  constructor
  · intro hmem
    rw [List.mem_flatMap] at hmem
    obtain ⟨layer, hlayer, hmem⟩ := hmem
    rw [List.mem_flatMap] at hmem
    obtain ⟨row, hrow, hmem⟩ := hmem
    rw [List.mem_map] at hmem
    obtain ⟨col, hcol, rfl⟩ := hmem
    exact ⟨layer, List.mem_range.mp hlayer, row, List.mem_range.mp hrow,
      col, List.mem_range.mp hcol, rfl⟩
  · rintro ⟨layer, hlayer, row, hrow, col, hcol, rfl⟩
    rw [List.mem_flatMap]
    refine ⟨layer, List.mem_range.mpr hlayer, ?_⟩
    rw [List.mem_flatMap]
    refine ⟨row, List.mem_range.mpr hrow, ?_⟩
    rw [List.mem_map]
    exact ⟨col, List.mem_range.mpr hcol, rfl⟩

/-- Lane-axis spacing is non-negative on valid dimension inputs. -/
theorem spacingX_nonneg (p : Params) (h1 : 0 ≤ p.rollHeightMm)
    (h2 : 0 ≤ p.rollGapMm) : 0 ≤ spacingX p := by
  unfold spacingX rollLengthW rollGapW MM EPS
  linarith

/-- Layer-axis spacing is non-negative on valid dimension inputs. -/
theorem spacingY_nonneg (p : Params) (h1 : 0 ≤ p.rollDiameterMm) :
    0 ≤ spacingY p := by
  unfold spacingY rollDiameterW MM EPS
  linarith

/-- Channel-axis spacing is non-negative on valid dimension inputs. -/
theorem spacingZ_nonneg (p : Params) (h1 : 0 ≤ p.rollDiameterMm) :
    0 ≤ spacingZ p := by
  unfold spacingZ rollDiameterW MM EPS
  linarith

/-- Helper `getFloat` returns a non-negative value whenever its fallback is
non-negative. -/
theorem getFloat_nonneg (raw : String) (fallback : ℚ) (h : 0 ≤ fallback) :
    0 ≤ getFloat raw fallback := by
  unfold getFloat
  rcases parseFloatJs raw with _ | v
  · exact h
  · dsimp only
    split
    · assumption
    · exact h

/-- Every configuration the reader emits is valid: positive counts,
non-negative dimensions.  This is the sense in which the claim theorems'
`Params.Valid` hypotheses quantify over exactly the configurations produced
from the inputs. -/
theorem readParams_valid (raw : RawInputs) : (readParams raw).Valid := by
  have h1 := getInt_pos raw.rollsPerRow 4 (by norm_num)
  have h2 := getInt_pos raw.rowsPerLayer 3 (by norm_num)
  have h3 := getInt_pos raw.layers 2 (by norm_num)
  refine ⟨?_, ?_, ?_, ?_, ?_, ?_, ?_⟩
  · show 1 ≤ (getInt raw.rollsPerRow 4).toNat
    omega
  · show 1 ≤ (getInt raw.rowsPerLayer 3).toNat
    omega
  · show 1 ≤ (getInt raw.layers 2).toNat
    omega
  · exact getFloat_nonneg _ _ (by norm_num)
  · exact getFloat_nonneg _ _ (by norm_num)
  · exact getFloat_nonneg _ _ (by norm_num)
  · exact getFloat_nonneg _ _ (by norm_num)

/-! Section: Claim theorems -/

/-- C1: one regeneration call creates exactly
`laneCount * channelCount * layerCount` placed roll instances, and the
reported `totalRollCount` equals that product — and hence equals the length
of the placement list. -/
theorem generatePack_count (p : Params) (g : PackGroup) :
    (generatePack p g).packGroup.length =
      p.rollsPerRow * p.rowsPerLayer * p.layers ∧
    (generatePack p g).total = p.rollsPerRow * p.rowsPerLayer * p.layers ∧
    (generatePack p g).total = (placements p).length := by
  refine ⟨?_, rfl, ?_⟩
  · simp [generatePack, clearPack, placements_length p]
  · simp [generatePack, placements_length p]

/-- C4: the layout uses lane-axis spacing `rollLength + gap + ε` and
channel- and layer-axis spacing `rollOuterDiameter + ε` (with `ε = EPS`, a
fixed constant); consecutive placements along the lane axis differ by
exactly the lane spacing; and the gap parameter enters only the lane axis
(replacing it leaves the other two spacings untouched). -/
theorem spacing_formula (p : Params) :
    spacingX p = rollLengthW p + rollGapW p + EPS ∧
    spacingY p = rollDiameterW p + EPS ∧
    spacingZ p = rollDiameterW p + EPS ∧
    (∀ col : ℕ,
      (offsetX p + ((col + 1 : ℕ) : ℚ) * spacingX p) -
          (offsetX p + (col : ℚ) * spacingX p) =
        rollLengthW p + rollGapW p + EPS) ∧
    (∀ g : ℚ, spacingY (p.withGap g) = spacingY p ∧
      spacingZ (p.withGap g) = spacingZ p ∧
      spacingX (p.withGap g) = rollLengthW p + g * MM + EPS) := by
  refine ⟨rfl, rfl, rfl, ?_, ?_⟩
  · intro col
    push_cast
    unfold spacingX
    ring
  · intro g
    exact ⟨rfl, rfl, rfl⟩

/-- C8: strictly increasing `gapMm` with all other fields fixed strictly
increases the lane-axis spacing and leaves the channel- and layer-axis
spacings unchanged. -/
theorem gap_monotone (p : Params) (g1 g2 : ℚ) (h : g1 < g2) :
    spacingX (p.withGap g1) < spacingX (p.withGap g2) ∧
    spacingY (p.withGap g1) = spacingY (p.withGap g2) ∧
    spacingZ (p.withGap g1) = spacingZ (p.withGap g2) := by
  refine ⟨?_, rfl, rfl⟩
  unfold spacingX rollLengthW rollGapW Params.withGap MM EPS
  dsimp only
  linarith

/-- Witness for C8 at the default configuration, gap 1 vs gap 7. -/
theorem gap_monotone_witness :
    (1 : ℚ) < 7 ∧
      spacingX (defaultParams.withGap 1) < spacingX (defaultParams.withGap 7) :=
  ⟨by norm_num, (gap_monotone defaultParams 1 7 (by norm_num)).1⟩

/-- C9: regeneration is idempotent and carries no hidden state: the scene
produced by a second call on top of the first one's output is the very scene
the first call produced, and the output (placements, geometry parameters and
counts included) does not depend on the pre-existing pack contents at all. -/
theorem generatePack_idempotent (p : Params) (s1 s2 : PackGroup) :
    generatePack p ((generatePack p s1).packGroup) = generatePack p s1 ∧
    generatePack p s1 = generatePack p s2 := by
  constructor <;> rfl

/-- C2 counterexample: at the scenario-3 configuration
(`coreOuterDiameterMm = 200`, `rollOuterDiameterMm = 120` — a value pair the
validation accepts) the builder's output violates
`coreOuterRadius < outerRadius`: the chain fails because nothing clamps the
core radius. -/
theorem buildRoll_chain_counterexample :
    ¬ (0 < (buildRoll (outerRadiusOf invalidCoreParams)
          (coreRadiusOf invalidCoreParams)
          (rollLengthW invalidCoreParams)).coreInnerRadius ∧
        (buildRoll (outerRadiusOf invalidCoreParams)
            (coreRadiusOf invalidCoreParams)
            (rollLengthW invalidCoreParams)).coreInnerRadius <
          (buildRoll (outerRadiusOf invalidCoreParams)
              (coreRadiusOf invalidCoreParams)
              (rollLengthW invalidCoreParams)).coreOuterRadius ∧
        (buildRoll (outerRadiusOf invalidCoreParams)
            (coreRadiusOf invalidCoreParams)
            (rollLengthW invalidCoreParams)).coreOuterRadius <
          (buildRoll (outerRadiusOf invalidCoreParams)
              (coreRadiusOf invalidCoreParams)
              (rollLengthW invalidCoreParams)).outerRadius) := by
  intro h
  have hlt := h.2.2
  norm_num [buildRoll, outerRadiusOf, coreRadiusOf, invalidCoreParams, MM]
    at hlt

/-- C2 amended: `buildRoll` performs no clamping, so the radius chain
`0 < coreInnerRadius < coreOuterRadius < outerRadius` holds exactly on
inputs that already satisfy `coreThickness < R_coreOuter < R_outer`; it is
violated (rather than repaired) when the input core radius reaches the
outer radius. -/
theorem buildRoll_chain (R_outer R_coreOuter L : ℚ)
    (h1 : coreThickness < R_coreOuter) (h2 : R_coreOuter < R_outer) :
    0 < (buildRoll R_outer R_coreOuter L).coreInnerRadius ∧
    (buildRoll R_outer R_coreOuter L).coreInnerRadius <
      (buildRoll R_outer R_coreOuter L).coreOuterRadius ∧
    (buildRoll R_outer R_coreOuter L).coreOuterRadius <
      (buildRoll R_outer R_coreOuter L).outerRadius := by
  have hth : (0 : ℚ) < coreThickness := by norm_num [coreThickness, MM]
  show 0 < max 0 (R_coreOuter - coreThickness) ∧
    max 0 (R_coreOuter - coreThickness) < R_coreOuter ∧ R_coreOuter < R_outer
  rw [max_eq_right (by linarith : (0 : ℚ) ≤ R_coreOuter - coreThickness)]
  exact ⟨by linarith, by linarith, h2⟩

/-- Witness for the amended C2 at the default dimensions
(roll radius 6, core radius 2.25, length 10 world units). -/
theorem buildRoll_chain_witness :
    coreThickness < 9 / 4 ∧ (9 / 4 : ℚ) < 6 ∧
      0 < (buildRoll 6 (9 / 4) 10).coreInnerRadius ∧
      (buildRoll 6 (9 / 4) 10).coreInnerRadius <
        (buildRoll 6 (9 / 4) 10).coreOuterRadius ∧
      (buildRoll 6 (9 / 4) 10).coreOuterRadius <
        (buildRoll 6 (9 / 4) 10).outerRadius :=
  ⟨by norm_num [coreThickness, MM], by norm_num,
    buildRoll_chain 6 (9 / 4) 10 (by norm_num [coreThickness, MM])
      (by norm_num)⟩

/-- C3 counterexample: on the scenario-3 input the builder does NOT clamp
the core outer radius to `0.99 * outerRadius`: the output keeps the
oversized input value (10 world units, against `0.99 * 6 = 5.94`). -/
theorem buildRoll_no_clamp_counterexample :
    (buildRoll (outerRadiusOf invalidCoreParams)
        (coreRadiusOf invalidCoreParams)
        (rollLengthW invalidCoreParams)).coreOuterRadius ≠
      (99 / 100) * (buildRoll (outerRadiusOf invalidCoreParams)
          (coreRadiusOf invalidCoreParams)
          (rollLengthW invalidCoreParams)).outerRadius := by
  norm_num [buildRoll, outerRadiusOf, coreRadiusOf, invalidCoreParams, MM]

/-- C3 amended: when the input core radius is at least the outer radius the
builder does not clamp — the output `coreOuterRadius` keeps the input
value — but it does return a complete geometry (it is a total function,
never failing or surfacing an error) whose shell patches carry the derived
radii, and `coreInnerRadius < coreOuterRadius` still holds as long as the
core radius exceeds the fixed wall thickness. -/
theorem buildRoll_total_without_clamp (R_outer R_coreOuter L : ℚ)
    (_hinv : R_outer ≤ R_coreOuter) (hthick : coreThickness < R_coreOuter) :
    (buildRoll R_outer R_coreOuter L).coreOuterRadius = R_coreOuter ∧
    (buildRoll R_outer R_coreOuter L).coreInnerRadius <
      (buildRoll R_outer R_coreOuter L).coreOuterRadius ∧
    (buildRoll R_outer R_coreOuter L).sideGeom =
      ⟨R_outer, R_outer, L - bevelDepth * 2, true⟩ ∧
    (buildRoll R_outer R_coreOuter L).bevelGeom =
      ⟨R_outer, R_outer, bevelDepth, true⟩ ∧
    (buildRoll R_outer R_coreOuter L).coreOuterGeom =
      ⟨R_coreOuter, R_coreOuter, L * (97 / 100), true⟩ ∧
    (buildRoll R_outer R_coreOuter L).coreInnerGeom.radiusTop =
      (buildRoll R_outer R_coreOuter L).coreInnerRadius ∧
    (buildRoll R_outer R_coreOuter L).coreEndRingGeom.innerRadius <
      (buildRoll R_outer R_coreOuter L).coreEndRingGeom.outerRadius := by
  have hth : (0 : ℚ) < coreThickness := by norm_num [coreThickness, MM]
  have hmax : max 0 (R_coreOuter - coreThickness) = R_coreOuter - coreThickness :=
    max_eq_right (by linarith)
  refine ⟨rfl, ?_, rfl, rfl, rfl, rfl, ?_⟩
  · show max 0 (R_coreOuter - coreThickness) < R_coreOuter
    rw [hmax]; linarith
  · show max 0 (R_coreOuter - coreThickness) < R_coreOuter
    rw [hmax]; linarith

/-- Witness for the amended C3 at the scenario-3 radii (outer 6, core 10). -/
theorem buildRoll_total_without_clamp_witness :
    (6 : ℚ) ≤ 10 ∧ coreThickness < 10 ∧
      (buildRoll 6 10 10).coreOuterRadius = 10 ∧
      (buildRoll 6 10 10).coreInnerRadius <
        (buildRoll 6 10 10).coreOuterRadius :=
  ⟨by norm_num, by norm_num [coreThickness, MM],
    (buildRoll_total_without_clamp 6 10 10 (by norm_num)
        (by norm_num [coreThickness, MM])).1,
    (buildRoll_total_without_clamp 6 10 10 (by norm_num)
        (by norm_num [coreThickness, MM])).2.1⟩

/-- C7 counterexample: `buildRoll`'s inner-radius floor is the constant 0,
not a fixed positive fraction of the core radius: with core radius `1/10`
(core diameter 2 mm, accepted by validation) the output's hollow core is
degenerate — its inner radius is 0 while its outer radius is positive. -/
theorem buildRoll_core_degenerates :
    (buildRoll 6 (1 / 10) 10).coreInnerRadius = 0 ∧
      (0 : ℚ) < (buildRoll 6 (1 / 10) 10).coreOuterRadius := by
  constructor
  · show max 0 ((1 / 10 : ℚ) - coreThickness) = 0
    rw [max_eq_left (by norm_num [coreThickness, MM])]
  · show (0 : ℚ) < 1 / 10
    norm_num

/-- C7 amended: the claimed derivation
`coreInnerRadius = max(coreOuterRadius - wallThickness, coreOuterRadius * k)`
is the one of `updateGeometries` (`main.js`), with `k = 0.6` and
`wallThickness = min(coreOuterRadius * 0.25, 0.8 * MM)`; for every positive
core radius it yields a non-degenerate hollow core,
`0 < coreInnerR < coreOuterR`.  `buildRoll` (`main_final.js`) instead
computes `max(0, coreOuterRadius - 1.2 * MM)`, whose floor is the constant
0, so its core degenerates for core radii up to `1.2 * MM`. -/
theorem coreInnerR_nondegenerate (R : ℚ) (hR : 0 < R) :
    coreInnerR R = max (R - coreWallThickness R) (R * (6 / 10)) ∧
    0 < coreInnerR R ∧ coreInnerR R < R ∧
    (∀ R_outer L, (buildRoll R_outer R L).coreInnerRadius =
      max 0 (R - coreThickness)) := by
  refine ⟨rfl, ?_, ?_, fun _ _ => rfl⟩
  · have h6 : (0 : ℚ) < R * (6 / 10) := by linarith
    have := le_max_right (R - coreWallThickness R) (R * (6 / 10))
    unfold coreInnerR
    linarith
  · unfold coreInnerR coreWallThickness MM
    rw [max_lt_iff]
    constructor
    · have hmin : (0 : ℚ) < min (R * (25 / 100)) ((8 / 10) * (1 / 10)) :=
        lt_min (by linarith) (by norm_num)
      linarith
    · linarith

/-- Witness for the amended C7 at the default core radius 2.25. -/
theorem coreInnerR_nondegenerate_witness :
    (0 : ℚ) < 9 / 4 ∧ 0 < coreInnerR (9 / 4) ∧ coreInnerR (9 / 4) < 9 / 4 :=
  ⟨by norm_num, (coreInnerR_nondegenerate (9 / 4) (by norm_num)).2.1,
    (coreInnerR_nondegenerate (9 / 4) (by norm_num)).2.2.1⟩

/-- C6 counterexample: a raw value of `"0"` for `rollOuterDiameterMm` — a
field the spec requires to be positive — is parsed to zero and kept, not
replaced by the documented fallback 120: `getFloat` accepts every value
`>= 0`, zero included. -/
theorem getFloat_keeps_zero : getFloat "0" 120 = 0 ∧ (0 : ℚ) ≠ 120 := by
  have h : parseFloatParts "0" = some ⟨false, 0, 0, 0, 0⟩ := by decide
  refine ⟨?_, by norm_num⟩
  simp [getFloat, parseFloatJs, h, ratOfLit, pow10]

/-- C6 amended: configuration parsing never propagates an error — both
helpers are total and substitute the fallback on every parse failure.  For
the count fields (`getInt`) non-numeric, zero and negative raw values are
all replaced by the fallback; for the dimension fields (`getFloat`)
non-numeric and negative raw values are replaced but a raw zero is accepted
as-is (the guard is `v >= 0`, not `v > 0`); the scenario-4 input
`rollOuterDiameterMm = "abc"` does yield the default 120. -/
theorem parsing_fallback_policy :
    (∀ s fb, parseIntJs s = none → getInt s fb = fb) ∧
    (∀ s fb v, parseIntJs s = some v → v ≤ 0 → getInt s fb = fb) ∧
    (∀ s fb, parseFloatJs s = none → getFloat s fb = fb) ∧
    (∀ s fb v, parseFloatJs s = some v → v < 0 → getFloat s fb = fb) ∧
    (∀ s fb v, parseFloatJs s = some v → 0 ≤ v → getFloat s fb = v) ∧
    getFloat "abc" 120 = 120 := by
  refine ⟨?_, ?_, ?_, ?_, ?_, ?_⟩
  · intro s fb h
    simp [getInt, h]
  · intro s fb v h hv
    simp [getInt, h, not_lt.mpr hv]
  · intro s fb h
    simp [getFloat, h]
  · intro s fb v h hv
    simp [getFloat, h, not_le.mpr hv]
  · intro s fb v h hv
    simp [getFloat, h, hv]
  · have h : parseFloatParts "abc" = none := by decide
    simp [getFloat, parseFloatJs, h]

/-- Witness for the amended C6: the fallback fires on a zero count, on a
negative dimension and on a non-numeric dimension. -/
theorem parsing_fallback_policy_witness :
    getInt "0" 4 = 4 ∧ getFloat "-5" 120 = 120 ∧ getFloat "abc" 120 = 120 := by
  have hm5 : parseFloatJs "-5" = some (-5) := by
    have h : parseFloatParts "-5" = some ⟨true, 5, 0, 0, 0⟩ := by decide
    simp [parseFloatJs, h, ratOfLit, pow10]
  exact ⟨parsing_fallback_policy.2.1 "0" 4 0 (by decide) (by decide),
    parsing_fallback_policy.2.2.2.1 "-5" 120 (-5) hm5 (by norm_num),
    parsing_fallback_policy.2.2.2.2.2⟩

/-- C10: `getInt` accepts any raw count string with a positive leading
base-10 integer prefix as that truncated prefix (`"3.9"` parses to 3,
`"5x"` to 5); the fallback fires exactly when the string has no leading
integer or the parsed value is not greater than 0. -/
theorem getInt_prefix_semantics :
    (∀ s fb v, parseIntJs s = some v → 0 < v → getInt s fb = v) ∧
    (∀ s fb, parseIntJs s = none → getInt s fb = fb) ∧
    (∀ s fb v, parseIntJs s = some v → v ≤ 0 → getInt s fb = fb) ∧
    (∀ fb, getInt "3.9" fb = 3) ∧
    (∀ fb, getInt "5x" fb = 5) := by
  have h39 : parseIntJs "3.9" = some 3 := by decide
  have h5x : parseIntJs "5x" = some 5 := by decide
  refine ⟨?_, ?_, ?_, ?_, ?_⟩
  · intro s fb v h hv
    simp [getInt, h, hv]
  · intro s fb h
    simp [getInt, h]
  · intro s fb v h hv
    simp [getInt, h, not_lt.mpr hv]
  · intro fb
    simp [getInt, h39]
  · intro fb
    simp [getInt, h5x]

/-- Witness for C10 on the truncating input `"3.9"`. -/
theorem getInt_prefix_semantics_witness :
    parseIntJs "3.9" = some 3 ∧ (0 : ℤ) < 3 ∧ getInt "3.9" 4 = 3 :=
  ⟨by decide, by decide,
    getInt_prefix_semantics.1 "3.9" 4 3 (by decide) (by decide)⟩

/-- Bounds of one grid axis: with `count` cells at non-negative spacing `s`
and centering offset `-mx` (where `mx = (count-1)*s/2`), cell `i`'s
coordinate lies in `[-mx, mx]`. -/
theorem axisCoordBounds {n : ℕ} (s off mx : ℚ) (hs : 0 ≤ s)
    (hoff : off = -mx) (hmx : mx = ((n : ℚ) - 1) * s / 2) {i : ℕ}
    (hi : i < n) : -mx ≤ off + (i : ℚ) * s ∧ off + (i : ℚ) * s ≤ mx := by
  have h0 : (0 : ℚ) ≤ (i : ℚ) * s := mul_nonneg (Nat.cast_nonneg i) hs
  have h1 : ((i : ℚ) + 1) ≤ (n : ℚ) := by exact_mod_cast hi
  have h2 : (i : ℚ) * s ≤ ((n : ℚ) - 1) * s :=
    mul_le_mul_of_nonneg_right (by linarith) hs
  constructor <;> [linarith; linarith]

/-- C5: each axis's centering offset is `-(count - 1) * spacing / 2`, so on
each axis every placement coordinate lies in `[-maxCoord, maxCoord]` and
both extremes are attained (at the first and last grid cells) — the minimum
and maximum coordinates are equal in magnitude and opposite in sign; in
particular a 1×1×1 grid yields the single placement `(0, 0, 0)`. -/
theorem placements_centered (p : Params) (hv : p.Valid) :
    offsetX p = -maxCoordX p ∧ baseY p = -maxCoordY p ∧
    offsetZ p = -maxCoordZ p ∧
    (∀ v ∈ placements p,
      -maxCoordX p ≤ v.1 ∧ v.1 ≤ maxCoordX p ∧
      -maxCoordY p ≤ v.2.1 ∧ v.2.1 ≤ maxCoordY p ∧
      -maxCoordZ p ≤ v.2.2 ∧ v.2.2 ≤ maxCoordZ p) ∧
    (∃ v ∈ placements p,
      v.1 = -maxCoordX p ∧ v.2.1 = -maxCoordY p ∧ v.2.2 = -maxCoordZ p) ∧
    (∃ v ∈ placements p,
      v.1 = maxCoordX p ∧ v.2.1 = maxCoordY p ∧ v.2.2 = maxCoordZ p) ∧
    (p.rollsPerRow = 1 → p.rowsPerLayer = 1 → p.layers = 1 →
      placements p = [(0, 0, 0)]) := by
  obtain ⟨hr, hc, hl, hd, hcd, hh, hg⟩ := hv
  have hsX := spacingX_nonneg p hh hg
  have hsY := spacingY_nonneg p hd
  have hsZ := spacingZ_nonneg p hd
  have heqX : offsetX p = -maxCoordX p := by
    unfold offsetX maxCoordX; ring
  have heqY : baseY p = -maxCoordY p := by
    unfold baseY maxCoordY; ring
  have heqZ : offsetZ p = -maxCoordZ p := by
    unfold offsetZ maxCoordZ; ring
  refine ⟨heqX, heqY, heqZ, ?_, ?_, ?_, ?_⟩
  · intro v hvmem
    rw [mem_placements] at hvmem
    obtain ⟨layer, hlayer, row, hrow, col, hcol, rfl⟩ := hvmem
    have hbx := axisCoordBounds (spacingX p) (offsetX p) (maxCoordX p) hsX
      heqX rfl hcol
    have hby := axisCoordBounds (spacingY p) (baseY p) (maxCoordY p) hsY
      heqY rfl hlayer
    have hbz := axisCoordBounds (spacingZ p) (offsetZ p) (maxCoordZ p) hsZ
      heqZ rfl hrow
    exact ⟨hbx.1, hbx.2, hby.1, hby.2, hbz.1, hbz.2⟩
  · refine ⟨(offsetX p + (0 : ℚ) * spacingX p, baseY p + (0 : ℚ) * spacingY p,
      offsetZ p + (0 : ℚ) * spacingZ p), ?_, ?_, ?_, ?_⟩
    · exact mem_placements.mpr ⟨0, by omega, 0, by omega, 0, by omega, by
        push_cast; rfl⟩
    · simpa using heqX
    · simpa using heqY
    · simpa using heqZ
  · have hcastR : ((p.rollsPerRow - 1 : ℕ) : ℚ) = (p.rollsPerRow : ℚ) - 1 :=
      Nat.cast_pred (by omega)
    have hcastC : ((p.rowsPerLayer - 1 : ℕ) : ℚ) = (p.rowsPerLayer : ℚ) - 1 :=
      Nat.cast_pred (by omega)
    have hcastL : ((p.layers - 1 : ℕ) : ℚ) = (p.layers : ℚ) - 1 :=
      Nat.cast_pred (by omega)
    refine ⟨(offsetX p + ((p.rollsPerRow - 1 : ℕ) : ℚ) * spacingX p,
      baseY p + ((p.layers - 1 : ℕ) : ℚ) * spacingY p,
      offsetZ p + ((p.rowsPerLayer - 1 : ℕ) : ℚ) * spacingZ p), ?_, ?_, ?_, ?_⟩
    · exact mem_placements.mpr ⟨p.layers - 1, by omega, p.rowsPerLayer - 1,
        by omega, p.rollsPerRow - 1, by omega, rfl⟩
    · show offsetX p + ((p.rollsPerRow - 1 : ℕ) : ℚ) * spacingX p = maxCoordX p
      rw [hcastR]; unfold offsetX maxCoordX; ring
    · show baseY p + ((p.layers - 1 : ℕ) : ℚ) * spacingY p = maxCoordY p
      rw [hcastL]; unfold baseY maxCoordY; ring
    · show offsetZ p + ((p.rowsPerLayer - 1 : ℕ) : ℚ) * spacingZ p = maxCoordZ p
      rw [hcastC]; unfold offsetZ maxCoordZ; ring
  · intro h1 h2 h3
    have hx : offsetX p = 0 := by
      unfold offsetX; rw [h1]; norm_num
    have hy : baseY p = 0 := by
      unfold baseY; rw [h3]; norm_num
    have hz : offsetZ p = 0 := by
      unfold offsetZ; rw [h2]; norm_num
    simp [placements, h1, h2, h3, hx, hy, hz, List.range_succ,
      List.range_zero, Prod.ext_iff]

/-- Witness for C5 at the 1×1×1 configuration of concrete scenario 2. -/
theorem placements_centered_witness :
    singleParams.Valid ∧ placements singleParams = [(0, 0, 0)] :=
  ⟨by decide,
    (placements_centered singleParams (by decide)).2.2.2.2.2.2 rfl rfl rfl⟩

end PackViz
